import Mathlib

set_option maxRecDepth 16000

/-!
Verification of the SolAR repository's Arweave transaction module
(`src/server/arweave/manual_tx.py`) against its natural-language
specification.

The Python module is shallowly embedded: byte strings become `List Nat`
(each element < 256), Python `str` becomes `String`, dictionaries with a
fixed field set become structures, exceptions become `Except`/`Option`
results, and in-place mutation of the transaction dictionary becomes
explicit state passing.  Library primitives the module calls
(`hashlib.sha256`, `hashlib.sha384`, `base64.urlsafe_b64encode/decode`,
`cryptography`'s RSA PKCS#1 v1.5 signing and private-key validation) are
embedded by their published algorithms (FIPS 180-4, RFC 8017), which is
what those libraries implement.
-/

/-- Byte strings (Python `bytes`): lists of naturals, each < 256 by construction. -/
abbrev Bytes := List Nat

/-- UTF-8 encoding of one character, as in CPython's `str.encode("utf-8")`. -/
def utf8EncodeChar (c : Char) : Bytes :=
  let n := c.toNat
  if n < 128 then [n]
  else if n < 2048 then [192 + n / 64, 128 + n % 64]
  else if n < 65536 then [224 + n / 4096, 128 + n / 64 % 64, 128 + n % 64]
  else [240 + n / 262144, 128 + n / 4096 % 64, 128 + n / 64 % 64, 128 + n % 64]

/-- Python `s.encode("utf-8")`. -/
def strBytes (s : String) : Bytes :=
  (s.data.map utf8EncodeChar).flatten

/-- Python `int.from_bytes(b, 'big')`. -/
def intFromBytesBE (b : Bytes) : Nat :=
  b.foldl (fun acc x => acc * 256 + x) 0

/-! ## Base64URL codec

Embedding of `base64url_encode` / `base64url_decode`
(`manual_tx.py` lines 12-21), which wrap CPython's
`base64.urlsafe_b64encode` / `base64.urlsafe_b64decode`. -/

/-- The URL-safe base64 alphabet used by `base64.urlsafe_b64encode`. -/
def b64Alphabet : List Char :=
  "ABCDEFGHIJKLMNOPQRSTUVWXYZabcdefghijklmnopqrstuvwxyz0123456789-_".data

/-- Character for a six-bit value. -/
def b64CharOf (v : Nat) : Char :=
  b64Alphabet.getD v 'A'

/-- Position of a character in the base64url alphabet, if any. -/
def b64Index (c : Char) : Option Nat :=
  go b64Alphabet 0
where
  go : List Char → Nat → Option Nat
    | [], _ => none
    | x :: xs, k => if x = c then some k else go xs (k + 1)

/-- Three-bytes-to-four-chars base64 groups, with `=` padding on a final
partial group, exactly as `base64.b64encode` produces them. -/
def encodeGroups : Bytes → List Char
  | a :: b :: c :: rest =>
    let w := a * 65536 + b * 256 + c
    b64CharOf (w / 262144) :: b64CharOf (w / 4096 % 64) ::
      b64CharOf (w / 64 % 64) :: b64CharOf (w % 64) :: encodeGroups rest
  | [a, b] => [b64CharOf (a / 4), b64CharOf (a % 4 * 16 + b / 16), b64CharOf (b % 16 * 4), '=']
  | [a] => [b64CharOf (a / 4), b64CharOf (a % 4 * 16), '=', '=']
  | [] => []

/-- Python `str.rstrip("=")`: drop trailing `=` characters. -/
def rstripEq (l : List Char) : List Char :=
  (l.reverse.dropWhile (fun c => c == '=')).reverse

/-- Embedding of `base64url_encode` (lines 12-14): urlsafe base64 with the
`=` padding stripped. -/
def base64url_encode (data : Bytes) : String :=
  ⟨rstripEq (encodeGroups data)⟩

/-- Characters `base64.b64decode` (non-strict) keeps: alphabet members and `=`. -/
def isB64Sym (c : Char) : Bool :=
  (b64Index c).isSome || c == '='

/-- Decoding of a full group of four data characters into three bytes. -/
def quadBytes (c1 c2 c3 c4 : Char) (tl : Option Bytes) : Option Bytes :=
  (b64Index c1).bind fun v1 => (b64Index c2).bind fun v2 =>
    (b64Index c3).bind fun v3 => (b64Index c4).bind fun v4 =>
      tl.map fun bs => (v1 * 4 + v2 / 16) :: (v2 % 16 * 16 + v3 / 4) :: (v3 % 4 * 64 + v4) :: bs

/-- Decoding of a trailing group of three data characters into two bytes. -/
def tripBytes (c1 c2 c3 : Char) : Option Bytes :=
  (b64Index c1).bind fun v1 => (b64Index c2).bind fun v2 =>
    (b64Index c3).map fun v3 => [v1 * 4 + v2 / 16, v2 % 16 * 16 + v3 / 4]

/-- Decoding of a trailing group of two data characters into one byte. -/
def pairBytes (c1 c2 : Char) : Option Bytes :=
  (b64Index c1).bind fun v1 =>
    (b64Index c2).map fun v2 => [v1 * 4 + v2 / 16]

/-- Four-chars-to-three-bytes base64 decoding of the data characters
before the first `=`; a trailing group of 3 chars yields 2 bytes, of
2 chars 1 byte, and a lone char is an error. -/
def decodeQuads : List Char → Option Bytes
  | c1 :: c2 :: c3 :: c4 :: rest => quadBytes c1 c2 c3 c4 (decodeQuads rest)
  | [c1, c2, c3] => tripBytes c1 c2 c3
  | [c1, c2] => pairBytes c1 c2
  | [_] => none
  | [] => some []

/-- Embedding of `base64url_decode` (lines 16-21): right-pad with `=` to a
multiple of 4, then `base64.urlsafe_b64decode` (which discards
non-alphabet characters and decodes the data characters before the first
`=`).  Decoding failures, which raise `binascii.Error` in Python, are
`none`. -/
def base64url_decode (s : String) : Option Bytes :=
  let rem := s.length % 4
  let padded := s.data ++ List.replicate (if rem > 0 then 4 - rem else 0) '='
  decodeQuads ((padded.filter isB64Sym).takeWhile (fun c => c != '='))

/-! ### Round-trip machinery for the codec -/

/-- Number of `=` padding characters `encodeGroups` appends. -/
def encPadCount : Bytes → Nat
  | _ :: _ :: _ :: rest => encPadCount rest
  | [_, _] => 1
  | [_] => 2
  | [] => 0

/-- The non-padding characters `encodeGroups` produces. -/
def encBody : Bytes → List Char
  | a :: b :: c :: rest =>
    let w := a * 65536 + b * 256 + c
    b64CharOf (w / 262144) :: b64CharOf (w / 4096 % 64) ::
      b64CharOf (w / 64 % 64) :: b64CharOf (w % 64) :: encBody rest
  | [a, b] => [b64CharOf (a / 4), b64CharOf (a % 4 * 16 + b / 16), b64CharOf (b % 16 * 4)]
  | [a] => [b64CharOf (a / 4), b64CharOf (a % 4 * 16)]
  | [] => []

/-! ## SHA-2 (FIPS 180-4)

Embedding of `hashlib.sha256` and `hashlib.sha384`, the two hash
primitives `manual_tx.py` uses (lines 23-24, 61-69, 121, 151).  Words are
naturals reduced mod `2^32` / `2^64`; the word-level structure follows
FIPS 180-4 directly. -/

/-- Modulus for 32-bit words. -/
def m32 : Nat := 4294967296

/-- Modulus for 64-bit words. -/
def m64 : Nat := 18446744073709551616

/-- Right rotation of a `w`-bit word by `r`. -/
def rotr (w r x : Nat) : Nat :=
  x / 2 ^ r + x % 2 ^ r * 2 ^ (w - r)

/-- Big-endian serialization of `n` into `k` bytes. -/
def beBytes : Nat → Nat → Bytes
  | 0, _ => []
  | k + 1, n => beBytes k (n / 256) ++ [n % 256]

/-- The 64 SHA-256 round constants. -/
def k256 : List Nat :=
  [1116352408, 1899447441, 3049323471, 3921009573, 961987163, 1508970993,
   2453635748, 2870763221, 3624381080, 310598401, 607225278, 1426881987,
   1925078388, 2162078206, 2614888103, 3248222580, 3835390401, 4022224774,
   264347078, 604807628, 770255983, 1249150122, 1555081692, 1996064986,
   2554220882, 2821834349, 2952996808, 3210313671, 3336571891, 3584528711,
   113926993, 338241895, 666307205, 773529912, 1294757372, 1396182291,
   1695183700, 1986661051, 2177026350, 2456956037, 2730485921, 2820302411,
   3259730800, 3345764771, 3516065817, 3600352804, 4094571909, 275423344,
   430227734, 506948616, 659060556, 883997877, 958139571, 1322822218,
   1537002063, 1747873779, 1955562222, 2024104815, 2227730452, 2361852424,
   2428436474, 2756734187, 3204031479, 3329325298]

/-- The 80 SHA-512 round constants. -/
def k512 : List Nat :=
  [4794697086780616226, 8158064640168781261, 13096744586834688815, 16840607885511220156,
   4131703408338449720, 6480981068601479193, 10538285296894168987, 12329834152419229976,
   15566598209576043074, 1334009975649890238, 2608012711638119052, 6128411473006802146,
   8268148722764581231, 9286055187155687089, 11230858885718282805, 13951009754708518548,
   16472876342353939154, 17275323862435702243, 1135362057144423861, 2597628984639134821,
   3308224258029322869, 5365058923640841347, 6679025012923562964, 8573033837759648693,
   10970295158949994411, 12119686244451234320, 12683024718118986047, 13788192230050041572,
   14330467153632333762, 15395433587784984357, 489312712824947311, 1452737877330783856,
   2861767655752347644, 3322285676063803686, 5560940570517711597, 5996557281743188959,
   7280758554555802590, 8532644243296465576, 9350256976987008742, 10552545826968843579,
   11727347734174303076, 12113106623233404929, 14000437183269869457, 14369950271660146224,
   15101387698204529176, 15463397548674623760, 17586052441742319658, 1182934255886127544,
   1847814050463011016, 2177327727835720531, 2830643537854262169, 3796741975233480872,
   4115178125766777443, 5681478168544905931, 6601373596472566643, 7507060721942968483,
   8399075790359081724, 8693463985226723168, 9568029438360202098, 10144078919501101548,
   10430055236837252648, 11840083180663258601, 13761210420658862357, 14299343276471374635,
   14566680578165727644, 15097957966210449927, 16922976911328602910, 17689382322260857208,
   500013540394364858, 748580250866718886, 1242879168328830382, 1977374033974150939,
   2944078676154940804, 3659926193048069267, 4368137639120453308, 4836135668995329356,
   5532061633213252278, 6448918945643986474, 6902733635092675308, 7801388544844847127]

/-- Eight-word working state. -/
structure Hash8 where
  a : Nat
  b : Nat
  c : Nat
  d : Nat
  e : Nat
  f : Nat
  g : Nat
  h : Nat

/-- SHA-256 initial state. -/
def iv256 : Hash8 :=
  ⟨1779033703, 3144134277, 1013904242, 2773480762, 1359893119, 2600822924, 528734635, 1541459225⟩

/-- SHA-384 initial state (FIPS 180-4 section 5.3.4). -/
def iv384 : Hash8 :=
  ⟨14680500436340154072, 7105036623409894663, 10473403895298186519, 1526699215303891257,
   7436329637833083697, 10282925794625328401, 15784041429090275239, 5167115440072839076⟩

/-- FIPS 180-4 message padding: `0x80`, zeros, big-endian bit length. -/
def shaPad (blockBytes lenBytes : Nat) (msg : Bytes) : Bytes :=
  let l := msg.length
  msg ++ 128 :: List.replicate ((blockBytes - (l + 1 + lenBytes) % blockBytes) % blockBytes) 0
    ++ beBytes lenBytes (8 * l)

/-- Big-endian 32-bit words of a byte string. -/
def words4 : Bytes → List Nat
  | b0 :: b1 :: b2 :: b3 :: r => (b0 * 16777216 + b1 * 65536 + b2 * 256 + b3) :: words4 r
  | _ => []

/-- Big-endian 64-bit words of a byte string. -/
def words8 : Bytes → List Nat
  | b0 :: b1 :: b2 :: b3 :: b4 :: b5 :: b6 :: b7 :: r =>
    ((((b0 * 256 + b1) * 256 + b2) * 256 + b3) * 4294967296 +
      (((b4 * 256 + b5) * 256 + b6) * 256 + b7)) :: words8 r
  | _ => []

/-- Split a word list into 16-word blocks (`f` is structural fuel). -/
def blocks16 : Nat → List Nat → List (List Nat)
  | 0, _ => []
  | _, [] => []
  | f + 1, w :: ws => ((w :: ws).take 16) :: blocks16 f ((w :: ws).drop 16)

/-- SHA-256 message-schedule extension; `acc` holds the words so far, most
recent first. -/
def sched256 : Nat → List Nat → List Nat
  | 0, acc => acc
  | k + 1, acc =>
    sched256 k
      (((acc.getD 15 0 + (rotr 32 7 (acc.getD 14 0) ^^^ rotr 32 18 (acc.getD 14 0) ^^^ acc.getD 14 0 / 8) +
          acc.getD 6 0 + (rotr 32 17 (acc.getD 1 0) ^^^ rotr 32 19 (acc.getD 1 0) ^^^ acc.getD 1 0 / 1024)) % m32) :: acc)

/-- SHA-512 message-schedule extension. -/
def sched512 : Nat → List Nat → List Nat
  | 0, acc => acc
  | k + 1, acc =>
    sched512 k
      (((acc.getD 15 0 + (rotr 64 1 (acc.getD 14 0) ^^^ rotr 64 8 (acc.getD 14 0) ^^^ acc.getD 14 0 / 128) +
          acc.getD 6 0 + (rotr 64 19 (acc.getD 1 0) ^^^ rotr 64 61 (acc.getD 1 0) ^^^ acc.getD 1 0 / 64)) % m64) :: acc)

/-- One SHA-256 round. -/
def step256 (k w : Nat) (s : Hash8) : Hash8 :=
  let s1 := rotr 32 6 s.e ^^^ rotr 32 11 s.e ^^^ rotr 32 25 s.e
  let ch := (s.e &&& s.f) ^^^ ((m32 - 1 - s.e) &&& s.g)
  let t1 := (s.h + s1 + ch + k + w) % m32
  let s0 := rotr 32 2 s.a ^^^ rotr 32 13 s.a ^^^ rotr 32 22 s.a
  let mj := (s.a &&& s.b) ^^^ (s.a &&& s.c) ^^^ (s.b &&& s.c)
  let t2 := (s0 + mj) % m32
  ⟨(t1 + t2) % m32, s.a, s.b, s.c, (s.d + t1) % m32, s.e, s.f, s.g⟩

/-- One SHA-512 round. -/
def step512 (k w : Nat) (s : Hash8) : Hash8 :=
  let s1 := rotr 64 14 s.e ^^^ rotr 64 18 s.e ^^^ rotr 64 41 s.e
  let ch := (s.e &&& s.f) ^^^ ((m64 - 1 - s.e) &&& s.g)
  let t1 := (s.h + s1 + ch + k + w) % m64
  let s0 := rotr 64 28 s.a ^^^ rotr 64 34 s.a ^^^ rotr 64 39 s.a
  let mj := (s.a &&& s.b) ^^^ (s.a &&& s.c) ^^^ (s.b &&& s.c)
  let t2 := (s0 + mj) % m64
  ⟨(t1 + t2) % m64, s.a, s.b, s.c, (s.d + t1) % m64, s.e, s.f, s.g⟩

/-- SHA-256 compression of one 16-word block. -/
def compress256 (st : Hash8) (block : List Nat) : Hash8 :=
  let w := (sched256 48 block.reverse).reverse
  let s := (k256.zip w).foldl (fun s kw => step256 kw.1 kw.2 s) st
  ⟨(st.a + s.a) % m32, (st.b + s.b) % m32, (st.c + s.c) % m32, (st.d + s.d) % m32,
   (st.e + s.e) % m32, (st.f + s.f) % m32, (st.g + s.g) % m32, (st.h + s.h) % m32⟩

/-- SHA-512 compression of one 16-word block. -/
def compress512 (st : Hash8) (block : List Nat) : Hash8 :=
  let w := (sched512 64 block.reverse).reverse
  let s := (k512.zip w).foldl (fun s kw => step512 kw.1 kw.2 s) st
  ⟨(st.a + s.a) % m64, (st.b + s.b) % m64, (st.c + s.c) % m64, (st.d + s.d) % m64,
   (st.e + s.e) % m64, (st.f + s.f) % m64, (st.g + s.g) % m64, (st.h + s.h) % m64⟩

/-- Embedding of `sha256` (`manual_tx.py` lines 23-24): `hashlib.sha256(data).digest()`. -/
def sha256 (msg : Bytes) : Bytes :=
  let ws := words4 (shaPad 64 8 msg)
  let st := (blocks16 ws.length ws).foldl compress256 iv256
  beBytes 4 st.a ++ beBytes 4 st.b ++ beBytes 4 st.c ++ beBytes 4 st.d ++
    beBytes 4 st.e ++ beBytes 4 st.f ++ beBytes 4 st.g ++ beBytes 4 st.h

/-- Embedding of `hashlib.sha384(...).digest()`: SHA-512 with the SHA-384
initial values, truncated to the first six words (48 bytes). -/
def sha384 (msg : Bytes) : Bytes :=
  let ws := words8 (shaPad 128 16 msg)
  let st := (blocks16 ws.length ws).foldl compress512 iv384
  beBytes 8 st.a ++ beBytes 8 st.b ++ beBytes 8 st.c ++ beBytes 8 st.d ++
    beBytes 8 st.e ++ beBytes 8 st.f

/-! ## Exceptions

Python exceptions relevant to the module.  `binascii.Error` is a subclass
of `ValueError`, so every failure the module can raise is a `ValueError`. -/

/-- Exception values.  `valueError` is CPython's `ValueError` (including its
subclass `binascii.Error`, raised by base64 decoding, and the errors raised
by the `cryptography` library's key validation and signing).  The remaining
constructors are modelled from the spec: its section 7 names an error
taxonomy (`KeyConsistencyError`, `SigningError`, `ValidationError`) that
exists nowhere in the source; they are included as constructors so that
claims naming them can be stated and compared against what the code
actually raises. -/
inductive PyError where
  | valueError (msg : String)
  | keyConsistencyError
  | signingError
  | validationError
deriving DecidableEq

/-- The error raised by a failing base64 decode (`binascii.Error`, a
`ValueError`). -/
def decodeErr : PyError := .valueError "Invalid base64-encoded string"

/-! ## Network client (collaborator)

`get_anchor` and `get_price` (`manual_tx.py` lines 44-56) perform a
blocking `requests.get`; the embedding takes the HTTP response they
receive as a parameter. -/

/-- An HTTP response as the module consumes it. -/
structure HttpResponse where
  status_code : Nat
  text : String
deriving DecidableEq

/-- Characters stripped by Python `str.strip()` (ASCII whitespace). -/
def isPySpace (c : Char) : Bool :=
  c == ' ' || c == '\t' || c == '\n' || c == '\r' || c.toNat == 11 || c.toNat == 12

/-- Python `s.strip()`. -/
def pyStrip (s : String) : String :=
  ⟨((s.data.dropWhile isPySpace).reverse.dropWhile isPySpace).reverse⟩

/-- Embedding of `get_anchor` (lines 44-49): the anchor text on HTTP 200,
the empty string otherwise. -/
def get_anchor (r : HttpResponse) : String :=
  if r.status_code = 200 then pyStrip r.text else ""

/-- Embedding of `get_price` (lines 51-56): the fee text on HTTP 200, the
string `"0"` otherwise.  The `size` argument only forms the URL. -/
def get_price (size : Nat) (r : HttpResponse) : String :=
  if r.status_code = 200 then pyStrip r.text else "0"

/-! ## Key loading -/

/-- A parsed Arweave JWK JSON object (the fields `load_jwk` reads). -/
structure Jwk where
  n : String
  e : String
  d : String
  p : String
  q : String
  dp : String
  dq : String
  qi : String
deriving DecidableEq

/-- RSA private-key numbers, as in `cryptography`'s `RSAPrivateNumbers`. -/
structure RSAPrivateNumbers where
  p : Nat
  q : Nat
  d : Nat
  dp : Nat
  dq : Nat
  qi : Nat
  e : Nat
  n : Nat
deriving DecidableEq

/-- Modelled from the `cryptography` library:
`_check_private_key_components`, run by `RSAPrivateNumbers.private_key()`,
which `load_jwk` calls.  Each failing check raises a `ValueError`; in
particular an inconsistent modulus raises
`ValueError("p*q must equal modulus.")`. -/
def checkPrivateKeyComponents (k : RSAPrivateNumbers) : Option PyError :=
  if k.n < 3 then some (.valueError "modulus must be >= 3.")
  else if k.p ≥ k.n then some (.valueError "p must be < modulus.")
  else if k.q ≥ k.n then some (.valueError "q must be < modulus.")
  else if k.dp ≥ k.n then some (.valueError "dmp1 must be < modulus.")
  else if k.dq ≥ k.n then some (.valueError "dmq1 must be < modulus.")
  else if k.qi ≥ k.n then some (.valueError "iqmp must be < modulus.")
  else if k.d ≥ k.n then some (.valueError "private_exponent must be < modulus.")
  else if k.e < 3 ∨ k.e ≥ k.n then some (.valueError "public_exponent must be >= 3 and < modulus.")
  else if k.e % 2 = 0 then some (.valueError "public_exponent must be odd.")
  else if k.dp % 2 = 0 then some (.valueError "dmp1 must be odd.")
  else if k.dq % 2 = 0 then some (.valueError "dmq1 must be odd.")
  else if k.p * k.q ≠ k.n then some (.valueError "p*q must equal modulus.")
  else none

/-- Embedding of `load_jwk` (lines 26-42).  File reading and JSON parsing
are abstracted to the parsed `Jwk` record; each field is base64url-decoded
and read as a big-endian integer, then `RSAPrivateNumbers(...).private_key()`
validates the components (see `checkPrivateKeyComponents`). -/
def load_jwk (jwk : Jwk) : Except PyError (RSAPrivateNumbers × Jwk) :=
  match base64url_decode jwk.n with
  | none => .error decodeErr
  | some nb =>
  match base64url_decode jwk.e with
  | none => .error decodeErr
  | some eb =>
  match base64url_decode jwk.d with
  | none => .error decodeErr
  | some db =>
  match base64url_decode jwk.p with
  | none => .error decodeErr
  | some pb =>
  match base64url_decode jwk.q with
  | none => .error decodeErr
  | some qb =>
  match base64url_decode jwk.dp with
  | none => .error decodeErr
  | some dpb =>
  match base64url_decode jwk.dq with
  | none => .error decodeErr
  | some dqb =>
  match base64url_decode jwk.qi with
  | none => .error decodeErr
  | some qib =>
    let key : RSAPrivateNumbers :=
      ⟨intFromBytesBE pb, intFromBytesBE qb, intFromBytesBE db, intFromBytesBE dpb,
       intFromBytesBE dqb, intFromBytesBE qib, intFromBytesBE eb, intFromBytesBE nb⟩
    match checkPrivateKeyComponents key with
    | some err => .error err
    | none => .ok (key, jwk)

/-! ## Tag serialization

`deep_hash_transaction_v2` serializes the tag list with `json.dumps`
(line 92).  Tags are the `name`/`value` pairs `main` describes
(line 183); `json.dumps` renders them with its default separators and
`ensure_ascii` escaping. -/

/-- A transaction tag (a Python dict with keys `name` and `value`, in that
insertion order). -/
structure Tag where
  name : String
  value : String
deriving DecidableEq

/-- Lower-case hex digit. -/
def hexDigit (n : Nat) : Char :=
  "0123456789abcdef".data.getD n '0'

/-- JSON `\uXXXX` escape. -/
def u16Esc (n : Nat) : List Char :=
  ['\\', 'u', hexDigit (n / 4096 % 16), hexDigit (n / 256 % 16),
   hexDigit (n / 16 % 16), hexDigit (n % 16)]

/-- Escaping of one character inside a JSON string, as `json.dumps` does
with its default `ensure_ascii=True`. -/
def jsonEscChar (c : Char) : List Char :=
  if c = '"' then ['\\', '"']
  else if c = '\\' then ['\\', '\\']
  else if c = '\n' then ['\\', 'n']
  else if c = '\r' then ['\\', 'r']
  else if c = '\t' then ['\\', 't']
  else if c.toNat = 8 then ['\\', 'b']
  else if c.toNat = 12 then ['\\', 'f']
  else if c.toNat < 32 then u16Esc c.toNat
  else if c.toNat < 127 then [c]
  else if c.toNat < 65536 then u16Esc c.toNat
  else u16Esc (55296 + (c.toNat - 65536) / 1024) ++ u16Esc (56320 + (c.toNat - 65536) % 1024)

/-- A JSON string literal. -/
def jsonStr (s : String) : List Char :=
  '"' :: (s.data.map jsonEscChar).flatten ++ ['"']

/-- One tag dict, rendered as `json.dumps` renders it (insertion order of
keys, default `", "` and `": "` separators). -/
def tagJson (t : Tag) : List Char :=
  [Char.ofNat 123] ++ jsonStr "name" ++ [':', ' '] ++ jsonStr t.name ++ [',', ' '] ++
    jsonStr "value" ++ [':', ' '] ++ jsonStr t.value ++ [Char.ofNat 125]

/-- Comma-space-joined list elements. -/
def joinSep : List (List Char) → List Char
  | [] => []
  | [x] => x
  | x :: y :: r => x ++ [',', ' '] ++ joinSep (y :: r)

/-- Python `json.dumps(tags)` for a list of name/value tag dicts. -/
def jsonDumpsTags (tags : List Tag) : String :=
  ⟨'[' :: joinSep (tags.map tagJson) ++ [']']⟩

/-! ## Transaction fields -/

/-- The transaction dictionary built by `main` (lines 178-191) and
consumed by `deep_hash_transaction_v2` and `sign_transaction_v2`: a fixed
field set with string values (`format` is the integer `2`). -/
structure TxFields where
  format : Nat
  id : String
  last_tx : String
  owner : String
  tags : List Tag
  target : String
  quantity : String
  data : String
  reward : String
  signature : String
  data_size : String
  data_root : String
deriving DecidableEq

/-- Label bytes `b'ARWEAVE_FORMAT'`. -/
def lbFormat : Bytes := strBytes "ARWEAVE_FORMAT"

/-- Label bytes `b'ARWEAVE_OWNER'`. -/
def lbOwner : Bytes := strBytes "ARWEAVE_OWNER"

/-- Label bytes `b'ARWEAVE_REWARD'`. -/
def lbReward : Bytes := strBytes "ARWEAVE_REWARD"

/-- Label bytes `b'ARWEAVE_LAST_TX'`. -/
def lbLastTx : Bytes := strBytes "ARWEAVE_LAST_TX"

/-- Label bytes `b'ARWEAVE_DATA_ROOT'`. -/
def lbDataRoot : Bytes := strBytes "ARWEAVE_DATA_ROOT"

/-- Label bytes `b'ARWEAVE_DATA_SIZE'`. -/
def lbDataSize : Bytes := strBytes "ARWEAVE_DATA_SIZE"

/-- Label bytes `b'ARWEAVE_TAGS'`. -/
def lbTags : Bytes := strBytes "ARWEAVE_TAGS"

/-- Label bytes `b'ARWEAVE_TARGET'`. -/
def lbTarget : Bytes := strBytes "ARWEAVE_TARGET"

/-- Label bytes `b'ARWEAVE_QUANTITY'`. -/
def lbQuantity : Bytes := strBytes "ARWEAVE_QUANTITY"

/-- Embedding of `deep_hash_chunk` (lines 61-69): SHA-384 of label ++ chunk. -/
def deep_hash_chunk (chunk_type chunk : Bytes) : Bytes :=
  sha384 (chunk_type ++ chunk)

/-- Embedding of `deep_hash_transaction_v2` (lines 71-122).  Field bytes
are extracted in source order (owner, last_tx, data_root decoded first;
the target entry is computed inside the list literal).  When `target` is
empty the list entry is the pair `(b'', b'')`; the loop's
`isinstance(chunk, tuple)` guard can never hold, because the
`for label, chunk in ...` statement destructures each pair, making `chunk`
always a bytes value — so no entry is ever skipped and the `(b'', b'')`
entry is hashed like any other. -/
def deep_hash_transaction_v2 (tx : TxFields) : Except PyError Bytes :=
  match base64url_decode tx.owner with
  | none => .error decodeErr
  | some owner_bytes =>
  match (if tx.last_tx ≠ "" then base64url_decode tx.last_tx else some []) with
  | none => .error decodeErr
  | some last_tx_bytes =>
  match base64url_decode tx.data_root with
  | none => .error decodeErr
  | some data_root_bytes =>
  match (if tx.target ≠ "" then (base64url_decode tx.target).map (fun t => (lbTarget, t))
         else some (([] : Bytes), ([] : Bytes))) with
  | none => .error decodeErr
  | some targetEntry =>
    let entries : List (Bytes × Bytes) :=
      [(lbFormat, strBytes (toString tx.format)),
       (lbOwner, owner_bytes),
       (lbReward, strBytes tx.reward),
       (lbLastTx, last_tx_bytes),
       (lbDataRoot, data_root_bytes),
       (lbDataSize, strBytes tx.data_size),
       (lbTags, strBytes (jsonDumpsTags tx.tags)),
       targetEntry,
       (lbQuantity, strBytes tx.quantity)]
    .ok (sha384 (entries.foldl (fun acc e => acc ++ deep_hash_chunk e.1 e.2) []))

/-! ## RSA PKCS#1 v1.5 signing (RFC 8017, as the cryptography library
implements it for `private_key.sign(data, PKCS1v15(), SHA384())`) -/

/-- Byte length of a natural number (structural fuel in the first
argument). -/
def byteLengthAux : Nat → Nat → Nat
  | 0, _ => 0
  | f + 1, n => if n = 0 then 0 else byteLengthAux f (n / 256) + 1

/-- Byte length of `n` (the RSA modulus size `k` of RFC 8017). -/
def byteLength (n : Nat) : Nat :=
  byteLengthAux n n

/-- Modular exponentiation by squaring (structural fuel in the first
argument). -/
def powModAux : Nat → Nat → Nat → Nat → Nat
  | 0, _, _, m => 1 % m
  | f + 1, b, e, m =>
    if e = 0 then 1 % m
    else
      let r := powModAux f (b * b % m) (e / 2) m
      if e % 2 = 1 then r * b % m else r

/-- Modular exponentiation `b ^ e % m`. -/
def powMod (b e m : Nat) : Nat :=
  powModAux e b e m

/-- The DER `DigestInfo` prefix for SHA-384 (RFC 8017 section 9.2 note 1). -/
def digestInfoSha384 : Bytes :=
  [48, 65, 48, 13, 6, 9, 96, 134, 72, 1, 101, 3, 4, 2, 2, 5, 0, 4, 48]

/-- RSASSA-PKCS1-v1_5 signing with SHA-384: EMSA-PKCS1-v1_5 encoding of the
message digest, then RSASP1 (`em ^ d mod n`).  When the modulus is too
small for the padded digest (`k < tLen + 11`) the library raises a
`ValueError`. -/
def rsassa_pkcs1_v15_sha384_sign (key : RSAPrivateNumbers) (msg : Bytes) :
    Except PyError Bytes :=
  let t := digestInfoSha384 ++ sha384 msg
  let k := byteLength key.n
  if k < t.length + 11 then .error (.valueError "digest too big for rsa key")
  else
    let em := 0 :: 1 :: (List.replicate (k - t.length - 3) 255 ++ 0 :: t)
    .ok (beBytes k (powMod (intFromBytesBE em) key.d key.n))

/-- Embedding of `sign_transaction_v2` (lines 124-155).  The Python
function mutates `tx_fields` in place and returns it; the embedding passes
the dictionary state explicitly and returns the final state together with
the exception that propagated, if any (`none` = normal termination, in
which case the returned state is also the function's return value). -/
def sign_transaction_v2 (tx : TxFields) (key : RSAPrivateNumbers) :
    TxFields × Option PyError :=
  match (if tx.data ≠ "" then (base64url_decode tx.data).map (fun db => base64url_encode (sha256 db))
         else some "") with
  | none => (tx, some decodeErr)
  | some root =>
    let tx1 := {tx with data_root := root}
    match deep_hash_transaction_v2 tx1 with
    | .error e => (tx1, some e)
    | .ok dd =>
      match rsassa_pkcs1_v15_sha384_sign key dd with
      | .error e => (tx1, some e)
      | .ok signature =>
        ({tx1 with signature := base64url_encode signature,
                   id := base64url_encode (sha256 signature)}, none)

/-- The transaction dictionary `main` builds (lines 178-191), generalized
over the values `main` gathers (anchor, payload bytes, reward, owner
modulus text); every other field is exactly `main`'s literal. -/
def build_tx_fields (anchor : String) (data_bytes : Bytes) (reward : String)
    (owner : String) : TxFields :=
  { format := 2, id := "", last_tx := anchor, owner := owner, tags := [],
    target := "", quantity := "0", data := base64url_encode data_bytes,
    reward := reward, signature := "", data_size := toString data_bytes.length,
    data_root := "" }

/-! ## Spec-side comparators -/

/-- Modelled from the spec (claim C1's field order): an intermediate
digest for every field in the order format, owner, target, quantity, fee
(the `reward` field), last-transaction anchor, tags, data_size, data_root,
with the same labels and byte extraction as the source, the digests
concatenated in that order and hashed. -/
def deep_hash_spec_order (tx : TxFields) : Except PyError Bytes :=
  match base64url_decode tx.owner with
  | none => .error decodeErr
  | some owner_bytes =>
  match base64url_decode tx.target with
  | none => .error decodeErr
  | some target_bytes =>
  match (if tx.last_tx ≠ "" then base64url_decode tx.last_tx else some []) with
  | none => .error decodeErr
  | some last_tx_bytes =>
  match base64url_decode tx.data_root with
  | none => .error decodeErr
  | some data_root_bytes =>
    let entries : List (Bytes × Bytes) :=
      [(lbFormat, strBytes (toString tx.format)),
       (lbOwner, owner_bytes),
       (lbTarget, target_bytes),
       (lbQuantity, strBytes tx.quantity),
       (lbReward, strBytes tx.reward),
       (lbLastTx, last_tx_bytes),
       (lbTags, strBytes (jsonDumpsTags tx.tags)),
       (lbDataSize, strBytes tx.data_size),
       (lbDataRoot, data_root_bytes)]
    .ok (sha384 (entries.foldl (fun acc e => acc ++ deep_hash_chunk e.1 e.2) []))

/-- Modelled from the spec and the source's own comment (line 113,
`(b'', b'')` case, skip): the deep hash as `deep_hash_transaction_v2`
computes it except that an empty target contributes no entry at all. -/
def deep_hash_skip_empty_target (tx : TxFields) : Except PyError Bytes :=
  match base64url_decode tx.owner with
  | none => .error decodeErr
  | some owner_bytes =>
  match (if tx.last_tx ≠ "" then base64url_decode tx.last_tx else some []) with
  | none => .error decodeErr
  | some last_tx_bytes =>
  match base64url_decode tx.data_root with
  | none => .error decodeErr
  | some data_root_bytes =>
  match (if tx.target ≠ "" then (base64url_decode tx.target).map (fun t => [(lbTarget, t)])
         else some ([] : List (Bytes × Bytes))) with
  | none => .error decodeErr
  | some targetEntries =>
    let entries : List (Bytes × Bytes) :=
      [(lbFormat, strBytes (toString tx.format)),
       (lbOwner, owner_bytes),
       (lbReward, strBytes tx.reward),
       (lbLastTx, last_tx_bytes),
       (lbDataRoot, data_root_bytes),
       (lbDataSize, strBytes tx.data_size),
       (lbTags, strBytes (jsonDumpsTags tx.tags))] ++
      targetEntries ++
      [(lbQuantity, strBytes tx.quantity)]
    .ok (sha384 (entries.foldl (fun acc e => acc ++ deep_hash_chunk e.1 e.2) []))

/-! ## Concrete inputs used by witnesses and counterexamples -/

/-- A minimal transaction record in the shape `main` builds: empty target,
empty anchor, empty payload, owner decoding to one zero byte. -/
def txCx : TxFields :=
  { format := 2, id := "", last_tx := "", owner := "AA", tags := [], target := "",
    quantity := "0", data := "", reward := "0", signature := "", data_size := "0",
    data_root := "" }

/-- A transaction record with a non-numeric quantity and fee and a
data_size that does not match the 2-byte payload `"aGk"` (= `b"hi"`). -/
def badTx : TxFields :=
  { format := 2, id := "", last_tx := "", owner := "AA", tags := [], target := "",
    quantity := "abc", data := "aGk", reward := "xy", signature := "", data_size := "999",
    data_root := "" }

/-- A consistent 624-bit RSA key (the smallest byte length, 78, that
PKCS#1 v1.5 with SHA-384 accepts).  `p` and `q` are primes,
`n = p * q`, and `d · e ≡ 1 (mod φ(n))`.  The private exponent is chosen
small (`d = 65537`, with `e` its inverse mod `φ(n)`) so that concrete
signing runs evaluate with a shallow exponentiation chain; the key
relation still holds exactly. -/
def bigKey : RSAPrivateNumbers :=
  { p := 6695188666289491103150569551596016943616675126987626331282389125081813138124625553288804908689,
    q := 6934169098496783989698465833231440117511849902773298594060932844069870244279467322614973411389,
    d := 65537,
    dp := 65537,
    dq := 65537,
    qi := 2287387371799251355551740297696286673726805962351381543389017091752973757405100406186135860957,
    e := 26922963013885115483829968582325560839817264942901481958785455348514685852737200214721423129896756350426227353133214637138912563727399221446695116590946087100463600244298038027397932924545,
    n := 46425570358390486067035853575221551353973164567777046338286649138967714748482815620486183962126025319925594096023530708651493580541699034316506645496327737858829180862027323897362977659021 }

/-- A 2-byte (16-bit) RSA key, far too small for PKCS#1 v1.5 with
SHA-384. -/
def smallKey : RSAPrivateNumbers :=
  { p := 61, q := 53, d := 2753, dp := 53, dq := 29, qi := 38, e := 17, n := 3233 }

/-- A JWK whose modulus (15) is not the product of its primes (3 and 7). -/
def badJwk : Jwk :=
  { n := "Dw", e := "Aw", d := "Aw", p := "Aw", q := "Bw", dp := "AQ", dq := "AQ", qi := "AQ" }

/-- The deep hash of `txCx` after the signer's data_root step (a concrete
48-byte value, extracted from the embedding). -/
def wdd : Bytes :=
  (deep_hash_transaction_v2 {txCx with data_root := ""}).toOption.getD []

/-- The PKCS#1 v1.5 / SHA-384 signature of `wdd` under `bigKey` (a
concrete 78-byte value, extracted from the embedding). -/
def wsig : Bytes :=
  (rsassa_pkcs1_v15_sha384_sign bigKey wdd).toOption.getD []

/-- Decidable equality of `Except` results, for evaluating the embedding
at concrete inputs. -/
instance {e a : Type} [DecidableEq e] [DecidableEq a] : DecidableEq (Except e a)
  | .error e1, .error e2 =>
    if h : e1 = e2 then .isTrue (congrArg Except.error h)
    else .isFalse fun hh => h (Except.error.inj hh)
  | .ok x, .ok y =>
    if h : x = y then .isTrue (congrArg Except.ok h)
    else .isFalse fun hh => h (Except.ok.inj hh)
  | .error _, .ok _ => .isFalse fun hh => Except.noConfusion hh
  | .ok _, .error _ => .isFalse fun hh => Except.noConfusion hh

/-! ## Theorems -/

theorem encodeGroups_eq_body_pads :
    ∀ bs : Bytes, encodeGroups bs = encBody bs ++ List.replicate (encPadCount bs) '='
  | _ :: _ :: _ :: rest => by
    simp only [encodeGroups, encBody, encPadCount, List.cons_append]
    simp [encodeGroups_eq_body_pads rest]
  | [_, _] => by simp [encodeGroups, encBody, encPadCount, List.replicate]
  | [_] => by simp [encodeGroups, encBody, encPadCount, List.replicate]
  | [] => rfl

theorem b64Index_b64CharOf : ∀ v < 64, b64Index (b64CharOf v) = some v := by decide

theorem b64CharOf_ne_eq : ∀ v < 64, b64CharOf v ≠ '=' ∧ isB64Sym (b64CharOf v) = true := by
  decide

theorem encBody_chars :
    ∀ bs : Bytes, (∀ x ∈ bs, x < 256) → ∀ c ∈ encBody bs, ∃ v, v < 64 ∧ c = b64CharOf v
  | a :: b :: c :: rest, h => by
    have ha : a < 256 := h a (by simp)
    have hb : b < 256 := h b (by simp)
    have hc : c < 256 := h c (by simp)
    intro x hx
    simp only [encBody, List.mem_cons] at hx
    rcases hx with rfl | rfl | rfl | rfl | hx
    · exact ⟨_, by omega, rfl⟩
    · exact ⟨_, by omega, rfl⟩
    · exact ⟨_, by omega, rfl⟩
    · exact ⟨_, by omega, rfl⟩
    · exact encBody_chars rest (fun y hy => h y (by simp [hy])) x hx
  | [a, b], h => by
    have ha : a < 256 := h a (by simp)
    have hb : b < 256 := h b (by simp)
    intro x hx
    simp only [encBody, List.mem_cons, List.not_mem_nil, or_false] at hx
    rcases hx with rfl | rfl | rfl
    · exact ⟨_, by omega, rfl⟩
    · exact ⟨_, by omega, rfl⟩
    · exact ⟨_, by omega, rfl⟩
  | [a], h => by
    have ha : a < 256 := h a (by simp)
    intro x hx
    simp only [encBody, List.mem_cons, List.not_mem_nil, or_false] at hx
    rcases hx with rfl | rfl
    · exact ⟨_, by omega, rfl⟩
    · exact ⟨_, by omega, rfl⟩
  | [], _ => by intro c hc; simp [encBody] at hc

theorem encBody_good (bs : Bytes) (h : ∀ x ∈ bs, x < 256) :
    ∀ c ∈ encBody bs, c ≠ '=' ∧ isB64Sym c = true := by
  intro c hc
  obtain ⟨v, hv, rfl⟩ := encBody_chars bs h c hc
  exact b64CharOf_ne_eq v hv

theorem dropWhile_replicate_append (k : Nat) (l : List Char) :
    List.dropWhile (fun c => c == '=') (List.replicate k '=' ++ l) =
      List.dropWhile (fun c => c == '=') l := by
  induction k with
  | zero => rfl
  | succ n ih => simp [List.replicate_succ, List.dropWhile, ih]

theorem rstripEq_body_pads (body : List Char) (k : Nat)
    (h : ∀ c ∈ body, c ≠ '=') :
    rstripEq (body ++ List.replicate k '=') = body := by
  unfold rstripEq
  rw [List.reverse_append, List.reverse_replicate, dropWhile_replicate_append]
  cases hrev : body.reverse with
  | nil => simpa using congrArg List.reverse hrev.symm
  | cons c t =>
    have hc : c ∈ body := by
      rw [← List.mem_reverse, hrev]; simp
    have : (c == '=') = false := by
      simpa using h c hc
    simp only [List.dropWhile, this]
    rw [← hrev, List.reverse_reverse]

theorem encBody_length_mod (bs : Bytes) :
    (if (encBody bs).length % 4 > 0 then 4 - (encBody bs).length % 4 else 0) =
      encPadCount bs := by
  induction bs using encPadCount.induct with
  | case1 a b c rest ih =>
    simp only [encBody, encPadCount, List.length_cons]
    have : (encBody rest).length + 1 + 1 + 1 + 1 = (encBody rest).length + 4 := by omega
    rw [this, Nat.add_mod_right]
    exact ih
  | case2 a b => rfl
  | case3 a => rfl
  | case4 => rfl

theorem takeWhile_body_pads (body : List Char) (k : Nat)
    (h : ∀ c ∈ body, c ≠ '=') :
    List.takeWhile (fun c => c != '=') (body ++ List.replicate k '=') = body := by
  induction body with
  | nil =>
    cases k with
    | zero => rfl
    | succ n => simp [List.replicate_succ, List.takeWhile_cons]
  | cons c t ih =>
    have hc : (c != '=') = true := by
      simpa using h c (by simp)
    simp only [List.cons_append, List.takeWhile_cons, hc, if_true]
    simp only [ih (fun x hx => h x (by simp [hx]))]

theorem quadBytes_eq (c1 c2 c3 c4 : Char) (v1 v2 v3 v4 : Nat) (bs : Bytes)
    (h1 : b64Index c1 = some v1) (h2 : b64Index c2 = some v2)
    (h3 : b64Index c3 = some v3) (h4 : b64Index c4 = some v4) :
    quadBytes c1 c2 c3 c4 (some bs) =
      some ((v1 * 4 + v2 / 16) :: (v2 % 16 * 16 + v3 / 4) :: (v3 % 4 * 64 + v4) :: bs) := by
  simp [quadBytes, h1, h2, h3, h4]

theorem tripBytes_eq (c1 c2 c3 : Char) (v1 v2 v3 : Nat)
    (h1 : b64Index c1 = some v1) (h2 : b64Index c2 = some v2)
    (h3 : b64Index c3 = some v3) :
    tripBytes c1 c2 c3 = some [v1 * 4 + v2 / 16, v2 % 16 * 16 + v3 / 4] := by
  simp [tripBytes, h1, h2, h3]

theorem pairBytes_eq (c1 c2 : Char) (v1 v2 : Nat)
    (h1 : b64Index c1 = some v1) (h2 : b64Index c2 = some v2) :
    pairBytes c1 c2 = some [v1 * 4 + v2 / 16] := by
  simp [pairBytes, h1, h2]

theorem decodeQuads_encBody :
    ∀ bs : Bytes, (∀ x ∈ bs, x < 256) → decodeQuads (encBody bs) = some bs
  | a :: b :: c :: rest, h => by
    have ha : a < 256 := h a (by simp)
    have hb : b < 256 := h b (by simp)
    have hc : c < 256 := h c (by simp)
    have hrest := decodeQuads_encBody rest (fun y hy => h y (by simp [hy]))
    show decodeQuads
        (b64CharOf ((a * 65536 + b * 256 + c) / 262144) ::
          b64CharOf ((a * 65536 + b * 256 + c) / 4096 % 64) ::
            b64CharOf ((a * 65536 + b * 256 + c) / 64 % 64) ::
              b64CharOf ((a * 65536 + b * 256 + c) % 64) :: encBody rest) = _
    rw [show ∀ x1 x2 x3 x4 tl, decodeQuads (x1 :: x2 :: x3 :: x4 :: tl) =
        quadBytes x1 x2 x3 x4 (decodeQuads tl) from fun _ _ _ _ _ => rfl, hrest,
      quadBytes_eq _ _ _ _ _ _ _ _ _
        (b64Index_b64CharOf _ (by omega)) (b64Index_b64CharOf _ (by omega))
        (b64Index_b64CharOf _ (by omega)) (b64Index_b64CharOf _ (by omega))]
    simp only [Option.some.injEq, List.cons.injEq]
    exact ⟨by omega, by omega, by omega, trivial⟩
  | [a, b], h => by
    have ha : a < 256 := h a (by simp)
    have hb : b < 256 := h b (by simp)
    show tripBytes _ _ _ = _
    rw [tripBytes_eq _ _ _ _ _ _
      (b64Index_b64CharOf _ (by omega)) (b64Index_b64CharOf _ (by omega))
      (b64Index_b64CharOf _ (by omega))]
    simp only [Option.some.injEq, List.cons.injEq]
    exact ⟨by omega, by omega, trivial⟩
  | [a], h => by
    have ha : a < 256 := h a (by simp)
    show pairBytes _ _ = _
    rw [pairBytes_eq _ _ _ _
      (b64Index_b64CharOf _ (by omega)) (b64Index_b64CharOf _ (by omega))]
    simp only [Option.some.injEq, List.cons.injEq]
    exact ⟨by omega, trivial⟩
  | [], _ => by rfl

theorem base64_roundtrip (bs : Bytes) (h : ∀ x ∈ bs, x < 256) :
    base64url_decode (base64url_encode bs) = some bs := by
  have hgood := encBody_good bs h
  have hne : ∀ c ∈ encBody bs, c ≠ '=' := fun c hc => (hgood c hc).1
  have hstrip : (base64url_encode bs).data = encBody bs := by
    show rstripEq (encodeGroups bs) = encBody bs
    rw [encodeGroups_eq_body_pads, rstripEq_body_pads _ _ hne]
  have hlen : (base64url_encode bs).length = (encBody bs).length := by
    show (base64url_encode bs).data.length = _
    rw [hstrip]
  unfold base64url_decode
  rw [hlen, hstrip]
  have hpadded :
      encBody bs ++ List.replicate
        (if (encBody bs).length % 4 > 0 then 4 - (encBody bs).length % 4 else 0) '=' =
      encBody bs ++ List.replicate (encPadCount bs) '=' := by
    rw [encBody_length_mod]
  simp only [gt_iff_lt] at hpadded ⊢
  rw [hpadded]
  have hfilter : (encBody bs ++ List.replicate (encPadCount bs) '=').filter isB64Sym =
      encBody bs ++ List.replicate (encPadCount bs) '=' := by
    rw [List.filter_eq_self]
    intro a ha
    rcases List.mem_append.mp ha with h1 | h2
    · exact (hgood a h1).2
    · have : a = '=' := List.eq_of_mem_replicate h2
      simp [isB64Sym, this]
  rw [hfilter, takeWhile_body_pads _ _ hne, decodeQuads_encBody bs h]

/-- FIPS 180-4 test vector: SHA-256 of the empty string. -/
theorem sha256_empty_vector :
    sha256 [] = [227, 176, 196, 66, 152, 252, 28, 20, 154, 251, 244, 200, 153, 111, 185, 36,
      39, 174, 65, 228, 100, 155, 147, 76, 164, 149, 153, 27, 120, 82, 184, 85] := by
  decide

/-- FIPS 180-4 test vector: SHA-256 of `"abc"`. -/
theorem sha256_abc_vector :
    sha256 [97, 98, 99] = [186, 120, 22, 191, 143, 1, 207, 234, 65, 65, 64, 222, 93, 174,
      34, 35, 176, 3, 97, 163, 150, 23, 122, 156, 180, 16, 255, 97, 242, 0, 21, 173] := by
  decide

/-- FIPS 180-4 test vector: SHA-384 of the empty string. -/
theorem sha384_empty_vector :
    sha384 [] = [56, 176, 96, 167, 81, 172, 150, 56, 76, 217, 50, 126, 177, 177, 227, 106,
      33, 253, 183, 17, 20, 190, 7, 67, 76, 12, 199, 191, 99, 246, 225, 218, 39, 78, 222,
      191, 231, 111, 101, 251, 213, 26, 210, 241, 72, 152, 185, 91] := by
  decide

/-- FIPS 180-4 test vector: SHA-384 of `"abc"`. -/
theorem sha384_abc_vector :
    sha384 [97, 98, 99] = [203, 0, 117, 63, 69, 163, 94, 139, 181, 160, 61, 105, 154, 198,
      80, 7, 39, 44, 50, 171, 14, 222, 209, 99, 26, 139, 96, 90, 67, 255, 91, 237, 128,
      134, 7, 43, 161, 231, 204, 35, 88, 186, 236, 161, 52, 200, 37, 167] := by
  decide

/-! ## Helper lemmas -/

theorem beBytes_length : ∀ k n : Nat, (beBytes k n).length = k
  | 0, _ => rfl
  | k + 1, n => by simp [beBytes, beBytes_length k]

theorem beBytes_mem_lt : ∀ k n : Nat, ∀ b ∈ beBytes k n, b < 256
  | 0, _ => by simp [beBytes]
  | k + 1, n => by
    intro b hb
    simp only [beBytes, List.mem_append, List.mem_singleton] at hb
    rcases hb with hb | rfl
    · exact beBytes_mem_lt k (n / 256) b hb
    · exact Nat.mod_lt _ (by omega)

theorem sha256_length (msg : Bytes) : (sha256 msg).length = 32 := by
  simp [sha256, beBytes_length]

theorem sha256_mem_lt (msg : Bytes) : ∀ b ∈ sha256 msg, b < 256 := by
  intro b hb
  simp only [sha256, List.mem_append] at hb
  rcases hb with ((((((hb | hb) | hb) | hb) | hb) | hb) | hb) | hb <;>
    exact beBytes_mem_lt _ _ b hb

theorem sha256_ne_nil (msg : Bytes) : sha256 msg ≠ [] := by
  intro h
  have := sha256_length msg
  rw [h] at this
  simp at this

theorem sha384_length (msg : Bytes) : (sha384 msg).length = 48 := by
  simp [sha384, beBytes_length]

theorem encBody_eq_nil : ∀ bs : Bytes, encBody bs = [] → bs = []
  | [] => fun _ => rfl
  | _ :: _ :: _ :: _ => fun h => by simp [encBody] at h
  | [_, _] => fun h => by simp [encBody] at h
  | [_] => fun h => by simp [encBody] at h

theorem base64url_encode_ne_empty (bs : Bytes) (h : ∀ x ∈ bs, x < 256) (hne : bs ≠ []) :
    base64url_encode bs ≠ "" := by
  intro hEq
  have hdata : rstripEq (encodeGroups bs) = [] := congrArg String.data hEq
  rw [encodeGroups_eq_body_pads,
    rstripEq_body_pads _ _ (fun c hc => (encBody_good bs h c hc).1)] at hdata
  exact hne (encBody_eq_nil bs hdata)

theorem checkFailsOfInconsistent (k : RSAPrivateNumbers) (h : k.p * k.q ≠ k.n) :
    ∃ msg, checkPrivateKeyComponents k = some (.valueError msg) := by
  unfold checkPrivateKeyComponents
  by_cases h1 : k.n < 3
  · rw [if_pos h1]; exact ⟨_, rfl⟩
  rw [if_neg h1]
  by_cases h2 : k.p ≥ k.n
  · rw [if_pos h2]; exact ⟨_, rfl⟩
  rw [if_neg h2]
  by_cases h3 : k.q ≥ k.n
  · rw [if_pos h3]; exact ⟨_, rfl⟩
  rw [if_neg h3]
  by_cases h4 : k.dp ≥ k.n
  · rw [if_pos h4]; exact ⟨_, rfl⟩
  rw [if_neg h4]
  by_cases h5 : k.dq ≥ k.n
  · rw [if_pos h5]; exact ⟨_, rfl⟩
  rw [if_neg h5]
  by_cases h6 : k.qi ≥ k.n
  · rw [if_pos h6]; exact ⟨_, rfl⟩
  rw [if_neg h6]
  by_cases h7 : k.d ≥ k.n
  · rw [if_pos h7]; exact ⟨_, rfl⟩
  rw [if_neg h7]
  by_cases h8 : k.e < 3 ∨ k.e ≥ k.n
  · rw [if_pos h8]; exact ⟨_, rfl⟩
  rw [if_neg h8]
  by_cases h9 : k.e % 2 = 0
  · rw [if_pos h9]; exact ⟨_, rfl⟩
  rw [if_neg h9]
  by_cases h10 : k.dp % 2 = 0
  · rw [if_pos h10]; exact ⟨_, rfl⟩
  rw [if_neg h10]
  by_cases h11 : k.dq % 2 = 0
  · rw [if_pos h11]; exact ⟨_, rfl⟩
  rw [if_neg h11]
  rw [if_pos h]
  exact ⟨_, rfl⟩

/-! ## Claim theorems -/

/-- Claim C6: for every byte string `b`, including the empty byte string,
`base64url_decode (base64url_encode b) = b`; the encoder strips `=`
padding and the decoder re-pads to a multiple of 4 before decoding. -/
theorem c6_roundtrip (bs : Bytes) (h : ∀ x ∈ bs, x < 256) :
    base64url_decode (base64url_encode bs) = some bs :=
  base64_roundtrip bs h

/-- Witness for C6 at the byte strings `[0, 255, 77, 1]` and `[]`. -/
theorem c6_roundtrip_witness :
    (∀ x ∈ [0, 255, 77, 1], x < 256) ∧
    base64url_decode (base64url_encode [0, 255, 77, 1]) = some [0, 255, 77, 1] ∧
    base64url_decode (base64url_encode []) = some [] :=
  ⟨by decide, c6_roundtrip [0, 255, 77, 1] (by decide), c6_roundtrip [] (by decide)⟩

/-- Claim C10: on any HTTP response whose status code is not 200,
`get_anchor` returns the empty string and `get_price` returns `"0"`,
without raising. -/
theorem c10_silent_defaults (size : Nat) (r : HttpResponse) (h : r.status_code ≠ 200) :
    get_anchor r = "" ∧ get_price size r = "0" := by
  unfold get_anchor get_price
  rw [if_neg h, if_neg h]
  exact ⟨rfl, rfl⟩

/-- Witness for C10 at a 404 response. -/
theorem c10_silent_defaults_witness :
    (HttpResponse.mk 404 "Not Found").status_code ≠ 200 ∧
    get_anchor ⟨404, "Not Found"⟩ = "" ∧ get_price 5 ⟨404, "Not Found"⟩ = "0" :=
  ⟨by decide, c10_silent_defaults 5 ⟨404, "Not Found"⟩ (by decide)⟩

/-- Claim C5, amended: when the decoded modulus differs from the product
of the two decoded primes, `load_jwk` raises an error — the
`cryptography` library's `ValueError` from private-key validation, not a
`KeyConsistencyError` (no such class exists) — and does so during key
loading, before any hashing or signing is attempted (`load_jwk` invokes
no hash or signature operation). -/
theorem c5_inconsistent_modulus (jwk : Jwk) (nb eb db pb qb dpb dqb qib : Bytes)
    (h1 : base64url_decode jwk.n = some nb) (h2 : base64url_decode jwk.e = some eb)
    (h3 : base64url_decode jwk.d = some db) (h4 : base64url_decode jwk.p = some pb)
    (h5 : base64url_decode jwk.q = some qb) (h6 : base64url_decode jwk.dp = some dpb)
    (h7 : base64url_decode jwk.dq = some dqb) (h8 : base64url_decode jwk.qi = some qib)
    (hne : intFromBytesBE pb * intFromBytesBE qb ≠ intFromBytesBE nb) :
    ∃ msg, load_jwk jwk = .error (.valueError msg) := by
  obtain ⟨msg, hmsg⟩ := checkFailsOfInconsistent
    ⟨intFromBytesBE pb, intFromBytesBE qb, intFromBytesBE db, intFromBytesBE dpb,
     intFromBytesBE dqb, intFromBytesBE qib, intFromBytesBE eb, intFromBytesBE nb⟩ hne
  refine ⟨msg, ?_⟩
  simp only [load_jwk, h1, h2, h3, h4, h5, h6, h7, h8, hmsg]

/-- Witness for C5 at `badJwk` (modulus 15, primes 3 and 7). -/
theorem c5_inconsistent_modulus_witness :
    base64url_decode badJwk.n = some [15] ∧ base64url_decode badJwk.e = some [3] ∧
    base64url_decode badJwk.d = some [3] ∧ base64url_decode badJwk.p = some [3] ∧
    base64url_decode badJwk.q = some [7] ∧ base64url_decode badJwk.dp = some [1] ∧
    base64url_decode badJwk.dq = some [1] ∧ base64url_decode badJwk.qi = some [1] ∧
    intFromBytesBE [3] * intFromBytesBE [7] ≠ intFromBytesBE [15] ∧
    ∃ msg, load_jwk badJwk = .error (.valueError msg) :=
  ⟨by decide, by decide, by decide, by decide, by decide, by decide, by decide, by decide,
   by decide,
   c5_inconsistent_modulus badJwk [15] [3] [3] [3] [7] [1] [1] [1]
     (by decide) (by decide) (by decide) (by decide) (by decide) (by decide) (by decide)
     (by decide) (by decide)⟩

/-- Counterexample for C5 as stated: at `badJwk` (modulus ≠ p·q) the
loader raises the library's `ValueError "p*q must equal modulus."`, which
is not a `KeyConsistencyError`. -/
theorem c5_counterexample :
    load_jwk badJwk = .error (.valueError "p*q must equal modulus.") ∧
    PyError.valueError "p*q must equal modulus." ≠ PyError.keyConsistencyError := by
  constructor
  · decide
  · decide

/-- Claim C1, amended: for every transaction record whose fields decode,
the hash builder computes an intermediate SHA-384 digest of
(label ++ field bytes) for each field in the order format, owner, fee
(`reward`), last-transaction anchor, data_root, data_size, tags, target,
quantity — not the claimed order — where the target entry degenerates to
an empty label with empty bytes when target is empty (it is hashed, not
omitted); the digests are concatenated in that order and the result is
the SHA-384 digest of the concatenation. -/
theorem c1_deep_hash_structure (tx : TxFields) (ob lb rb tb : Bytes)
    (ho : base64url_decode tx.owner = some ob)
    (hl : (if tx.last_tx ≠ "" then base64url_decode tx.last_tx else some []) = some lb)
    (hr : base64url_decode tx.data_root = some rb)
    (ht : (if tx.target ≠ "" then base64url_decode tx.target else some []) = some tb) :
    deep_hash_transaction_v2 tx = .ok (sha384 (
      deep_hash_chunk lbFormat (strBytes (toString tx.format)) ++
      deep_hash_chunk lbOwner ob ++
      deep_hash_chunk lbReward (strBytes tx.reward) ++
      deep_hash_chunk lbLastTx lb ++
      deep_hash_chunk lbDataRoot rb ++
      deep_hash_chunk lbDataSize (strBytes tx.data_size) ++
      deep_hash_chunk lbTags (strBytes (jsonDumpsTags tx.tags)) ++
      deep_hash_chunk (if tx.target ≠ "" then lbTarget else []) tb ++
      deep_hash_chunk lbQuantity (strBytes tx.quantity))) := by
  by_cases hT : tx.target = ""
  · have ht' : tb = [] := by
      rw [hT] at ht
      simpa using ht.symm
    subst ht'
    simp [deep_hash_transaction_v2, ho, hl, hr, hT, List.foldl]
  · have ht' : base64url_decode tx.target = some tb := by
      rw [if_pos hT] at ht
      exact ht
    simp [deep_hash_transaction_v2, ho, hl, hr, ht', hT, List.foldl]

/-- Witness for the amended C1 at `txCx`. -/
theorem c1_deep_hash_structure_witness :
    base64url_decode txCx.owner = some [0] ∧
    (if txCx.last_tx ≠ "" then base64url_decode txCx.last_tx else some []) = some [] ∧
    base64url_decode txCx.data_root = some [] ∧
    (if txCx.target ≠ "" then base64url_decode txCx.target else some []) = some [] ∧
    deep_hash_transaction_v2 txCx = .ok (sha384 (
      deep_hash_chunk lbFormat (strBytes (toString txCx.format)) ++
      deep_hash_chunk lbOwner [0] ++
      deep_hash_chunk lbReward (strBytes txCx.reward) ++
      deep_hash_chunk lbLastTx [] ++
      deep_hash_chunk lbDataRoot [] ++
      deep_hash_chunk lbDataSize (strBytes txCx.data_size) ++
      deep_hash_chunk lbTags (strBytes (jsonDumpsTags txCx.tags)) ++
      deep_hash_chunk (if txCx.target ≠ "" then lbTarget else []) [] ++
      deep_hash_chunk lbQuantity (strBytes txCx.quantity))) :=
  ⟨by decide, by decide, by decide, by decide,
   c1_deep_hash_structure txCx [0] [] [] [] (by decide) (by decide) (by decide) (by decide)⟩

/-- Counterexample for C1 as stated: at `txCx` the digest the code
computes differs from the digest obtained with the claim's field order
(format, owner, target, quantity, fee, anchor, tags, data_size,
data_root); both computations succeed, and their 48-byte results are
unequal. -/
theorem c1_counterexample :
    deep_hash_transaction_v2 txCx ≠ deep_hash_spec_order txCx ∧
    (deep_hash_transaction_v2 txCx).isOk = true ∧
    (deep_hash_spec_order txCx).isOk = true := by
  refine ⟨by decide, by decide, by decide⟩

/-- Claim C2 (a code bug): at a record with empty target the chunk list
still contains a ninth entry `(b'', b'')` — the `for` loop destructures
the pair, so the `isinstance(chunk, tuple)` skip (the source's own stated
intent at line 113) never fires — and `sha384(b'' ++ b'')` is
concatenated into the digest stream between the tags digest and the
quantity digest; consequently the result differs from the hash that
omits the empty-target entry. -/
theorem c2_empty_target_chunk_hashed :
    deep_hash_transaction_v2 txCx = .ok (sha384 (
      deep_hash_chunk lbFormat (strBytes "2") ++
      deep_hash_chunk lbOwner [0] ++
      deep_hash_chunk lbReward (strBytes "0") ++
      deep_hash_chunk lbLastTx [] ++
      deep_hash_chunk lbDataRoot [] ++
      deep_hash_chunk lbDataSize (strBytes "0") ++
      deep_hash_chunk lbTags (strBytes "[]") ++
      deep_hash_chunk [] [] ++
      deep_hash_chunk lbQuantity (strBytes "0"))) ∧
    deep_hash_transaction_v2 txCx ≠ deep_hash_skip_empty_target txCx := by
  exact ⟨by decide, by decide⟩

theorem sign_state_core (tx : TxFields) (key : RSAPrivateNumbers) (root : String)
    (h : (if tx.data ≠ "" then (base64url_decode tx.data).map (fun db => base64url_encode (sha256 db))
          else some "") = some root) :
    (sign_transaction_v2 tx key).1.data_root = root ∧
    (sign_transaction_v2 tx key).1.format = tx.format ∧
    (sign_transaction_v2 tx key).1.last_tx = tx.last_tx ∧
    (sign_transaction_v2 tx key).1.owner = tx.owner ∧
    (sign_transaction_v2 tx key).1.tags = tx.tags ∧
    (sign_transaction_v2 tx key).1.target = tx.target ∧
    (sign_transaction_v2 tx key).1.quantity = tx.quantity ∧
    (sign_transaction_v2 tx key).1.data = tx.data ∧
    (sign_transaction_v2 tx key).1.reward = tx.reward ∧
    (sign_transaction_v2 tx key).1.data_size = tx.data_size := by
  simp only [sign_transaction_v2, h]
  cases hdh : deep_hash_transaction_v2 {tx with data_root := root} with
  | error e => simp [hdh]
  | ok dd =>
    cases hrs : rsassa_pkcs1_v15_sha384_sign key dd with
    | error e => simp [hdh, hrs]
    | ok sig => simp [hdh, hrs]

theorem rsassa_ok_shape (key : RSAPrivateNumbers) (msg sig : Bytes)
    (h : rsassa_pkcs1_v15_sha384_sign key msg = .ok sig) :
    sig.length = byteLength key.n ∧ 78 ≤ byteLength key.n ∧ ∀ b ∈ sig, b < 256 := by
  simp only [rsassa_pkcs1_v15_sha384_sign] at h
  have h67 : (digestInfoSha384 ++ sha384 msg).length = 67 := by
    simp [digestInfoSha384, sha384_length]
  rw [h67] at h
  by_cases hk : byteLength key.n < 67 + 11
  · rw [if_pos hk] at h
    exact Except.noConfusion h
  · rw [if_neg hk] at h
    have hinj := Except.ok.inj h
    subst hinj
    exact ⟨beBytes_length _ _, by omega, fun b hb => beBytes_mem_lt _ _ b hb⟩

/-- Claim C3: the signer signs the deep hash with deterministic PKCS#1
v1.5 padding and SHA-384 (see `rsassa_pkcs1_v15_sha384_sign`), stores the
base64url encoding of the raw signature bytes in `signature`, and sets
`id` to the base64url encoding of the SHA-256 hash of the raw signature
bytes. -/
theorem c3_sign_fields (tx : TxFields) (key : RSAPrivateNumbers) (root : String)
    (dd sig : Bytes)
    (hroot : (if tx.data ≠ "" then (base64url_decode tx.data).map (fun db => base64url_encode (sha256 db))
              else some "") = some root)
    (hdh : deep_hash_transaction_v2 {tx with data_root := root} = .ok dd)
    (hsig : rsassa_pkcs1_v15_sha384_sign key dd = .ok sig) :
    sign_transaction_v2 tx key =
      ({tx with data_root := root,
                signature := base64url_encode sig,
                id := base64url_encode (sha256 sig)}, none) := by
  simp only [sign_transaction_v2, hroot, hdh, hsig]

/-- Witness for C3: a full concrete signing run with the 624-bit key. -/
theorem c3_sign_fields_witness :
    (if txCx.data ≠ "" then (base64url_decode txCx.data).map (fun db => base64url_encode (sha256 db))
     else some "") = some "" ∧
    deep_hash_transaction_v2 {txCx with data_root := ""} = .ok wdd ∧
    rsassa_pkcs1_v15_sha384_sign bigKey wdd = .ok wsig ∧
    sign_transaction_v2 txCx bigKey =
      ({txCx with data_root := "", signature := base64url_encode wsig,
                  id := base64url_encode (sha256 wsig)}, none) :=
  ⟨by decide, by decide, by decide,
   c3_sign_fields txCx bigKey "" wdd wsig (by decide) (by decide) (by decide)⟩

/-- Claim C4, amended: the signer is atomic in its two observable
outcomes — on normal termination both `signature` and `id` are populated
(non-empty), and when an error propagates neither field has been
modified — but the error is the underlying library's `ValueError` (e.g.
on key-size/padding incompatibility), not a `SigningError`: no such
class exists in the source. -/
theorem c4_atomic (tx : TxFields) (key : RSAPrivateNumbers) :
    ((sign_transaction_v2 tx key).2 = none →
      (sign_transaction_v2 tx key).1.signature ≠ "" ∧
      (sign_transaction_v2 tx key).1.id ≠ "") ∧
    (∀ e, (sign_transaction_v2 tx key).2 = some e →
      (sign_transaction_v2 tx key).1.signature = tx.signature ∧
      (sign_transaction_v2 tx key).1.id = tx.id) := by
  cases hroot : (if tx.data ≠ "" then (base64url_decode tx.data).map (fun db => base64url_encode (sha256 db))
                 else some "") with
  | none =>
    constructor
    · intro hs
      simp [sign_transaction_v2, hroot] at hs
    · intro e he
      simp [sign_transaction_v2, hroot]
  | some root =>
    cases hdh : deep_hash_transaction_v2 {tx with data_root := root} with
    | error e1 =>
      constructor
      · intro hs
        simp [sign_transaction_v2, hroot, hdh] at hs
      · intro e he
        simp [sign_transaction_v2, hroot, hdh]
    | ok dd =>
      cases hrs : rsassa_pkcs1_v15_sha384_sign key dd with
      | error e1 =>
        constructor
        · intro hs
          simp [sign_transaction_v2, hroot, hdh, hrs] at hs
        · intro e he
          simp [sign_transaction_v2, hroot, hdh, hrs]
      | ok sig =>
        constructor
        · intro _
          obtain ⟨hlen, hk, hmem⟩ := rsassa_ok_shape key dd sig hrs
          have hsig_ne : sig ≠ [] := by
            intro hnil
            rw [hnil] at hlen
            simp at hlen
            omega
          simp only [sign_transaction_v2, hroot, hdh, hrs]
          exact ⟨base64url_encode_ne_empty sig hmem hsig_ne,
                 base64url_encode_ne_empty (sha256 sig) (sha256_mem_lt sig) (sha256_ne_nil sig)⟩
        · intro e he
          simp [sign_transaction_v2, hroot, hdh, hrs] at he

/-- Witness for C4: a successful run with the 624-bit key (both fields
populated) and a failing run with the 16-bit key (an error, neither field
modified). -/
theorem c4_atomic_witness :
    ((sign_transaction_v2 txCx bigKey).2 = none ∧
     (sign_transaction_v2 txCx bigKey).1.signature ≠ "" ∧
     (sign_transaction_v2 txCx bigKey).1.id ≠ "") ∧
    ((sign_transaction_v2 txCx smallKey).2 = some (.valueError "digest too big for rsa key") ∧
     (sign_transaction_v2 txCx smallKey).1.signature = txCx.signature ∧
     (sign_transaction_v2 txCx smallKey).1.id = txCx.id) :=
  ⟨⟨by decide, (c4_atomic txCx bigKey).1 (by decide)⟩,
   ⟨by decide, (c4_atomic txCx smallKey).2 (.valueError "digest too big for rsa key") (by decide)⟩⟩

/-- Counterexample for C4 as stated: signing `txCx` with the 16-bit key
fails, and the propagated error is the library's `ValueError`, not a
`SigningError` (the claim names an exception class that exists nowhere in
the source). -/
theorem c4_counterexample :
    (sign_transaction_v2 txCx smallKey).2 = some (.valueError "digest too big for rsa key") ∧
    PyError.valueError "digest too big for rsa key" ≠ PyError.signingError := by
  exact ⟨by decide, by decide⟩

/-- Claim C7, amended: no validation exists.  Whenever the payload-hash
step and the deep hash go through and the key is large enough, signing
terminates normally — with no hypothesis whatsoever on the quantity or
fee strings or on the consistency of data_size with the payload length.
No `ValidationError` (or any check producing one) appears in the code. -/
theorem c7_no_validation (tx : TxFields) (key : RSAPrivateNumbers) (root : String)
    (hroot : (if tx.data ≠ "" then (base64url_decode tx.data).map (fun db => base64url_encode (sha256 db))
              else some "") = some root)
    (hdh : (deep_hash_transaction_v2 {tx with data_root := root}).isOk = true)
    (hkey : 78 ≤ byteLength key.n) :
    (sign_transaction_v2 tx key).2 = none := by
  cases hdh2 : deep_hash_transaction_v2 {tx with data_root := root} with
  | error e =>
    rw [hdh2] at hdh
    simp [Except.isOk, Except.toBool] at hdh
  | ok dd =>
    simp only [sign_transaction_v2, hroot, hdh2]
    have h67 : (digestInfoSha384 ++ sha384 dd).length = 67 := by
      simp [digestInfoSha384, sha384_length]
    simp only [rsassa_pkcs1_v15_sha384_sign, h67]
    rw [if_neg (by omega)]

/-- Witness for the amended C7: `badTx` has quantity `"abc"`, fee `"xy"`,
and data_size `"999"` against a 2-byte payload, yet signing completes. -/
theorem c7_no_validation_witness :
    (if badTx.data ≠ "" then (base64url_decode badTx.data).map (fun db => base64url_encode (sha256 db))
     else some "") = some (base64url_encode (sha256 [104, 105])) ∧
    (deep_hash_transaction_v2 {badTx with data_root := base64url_encode (sha256 [104, 105])}).isOk = true ∧
    78 ≤ byteLength bigKey.n ∧
    (sign_transaction_v2 badTx bigKey).2 = none :=
  ⟨by decide, by decide, by decide,
   c7_no_validation badTx bigKey (base64url_encode (sha256 [104, 105]))
     (by decide) (by decide) (by decide)⟩

/-- Counterexample for C7 as stated: the record `badTx` (non-numeric
quantity and fee, data_size inconsistent with the payload) is signed
without any error — no `ValidationError` is raised, before or instead of
the cryptographic work. -/
theorem c7_counterexample :
    (sign_transaction_v2 badTx bigKey).2 = none ∧
    (sign_transaction_v2 badTx bigKey).1.signature ≠ "" := by
  exact ⟨by decide, by decide⟩

/-- Claim C8: with the record built as `main` builds it, an empty payload
yields `data_root = ""` and `data_size = "0"`; a non-empty payload yields
`data_root = base64url(sha256(payload))`. -/
theorem c8_data_root (anchor reward owner : String) (payload : Bytes)
    (key : RSAPrivateNumbers) (h : ∀ x ∈ payload, x < 256) :
    ((sign_transaction_v2 (build_tx_fields anchor payload reward owner) key).1.data_root =
      if payload = [] then "" else base64url_encode (sha256 payload)) ∧
    (payload = [] →
      (sign_transaction_v2 (build_tx_fields anchor payload reward owner) key).1.data_size = "0") := by
  by_cases hpl : payload = []
  · subst hpl
    have hroot : (if (build_tx_fields anchor [] reward owner).data ≠ "" then
        (base64url_decode (build_tx_fields anchor [] reward owner).data).map
          (fun db => base64url_encode (sha256 db)) else some "") = some "" := by
      have hd : (build_tx_fields anchor [] reward owner).data = "" := rfl
      rw [hd]
      simp
    obtain ⟨hdr, _, _, _, _, _, _, _, _, hds⟩ :=
      sign_state_core (build_tx_fields anchor [] reward owner) key "" hroot
    exact ⟨by simpa using hdr, fun _ => by rw [hds]; rfl⟩
  · have hne : base64url_encode payload ≠ "" := base64url_encode_ne_empty payload h hpl
    have hd : (build_tx_fields anchor payload reward owner).data = base64url_encode payload := rfl
    have hroot : (if (build_tx_fields anchor payload reward owner).data ≠ "" then
        (base64url_decode (build_tx_fields anchor payload reward owner).data).map
          (fun db => base64url_encode (sha256 db)) else some "") =
        some (base64url_encode (sha256 payload)) := by
      rw [hd, if_pos hne, base64_roundtrip payload h]
      rfl
    obtain ⟨hdr, _⟩ :=
      sign_state_core (build_tx_fields anchor payload reward owner) key _ hroot
    exact ⟨by rw [if_neg hpl]; exact hdr, fun hc => absurd hc hpl⟩

/-- Witness for C8 with payload `b"hi"` and with the empty payload. -/
theorem c8_data_root_witness :
    (∀ x ∈ ([104, 105] : Bytes), x < 256) ∧
    (((sign_transaction_v2 (build_tx_fields "" [104, 105] "0" "AA") smallKey).1.data_root =
       if ([104, 105] : Bytes) = [] then "" else base64url_encode (sha256 [104, 105])) ∧
     (([104, 105] : Bytes) = [] →
       (sign_transaction_v2 (build_tx_fields "" [104, 105] "0" "AA") smallKey).1.data_size = "0")) ∧
    (sign_transaction_v2 (build_tx_fields "" [] "0" "AA") smallKey).1.data_size = "0" :=
  ⟨by decide,
   c8_data_root "" "0" "AA" [104, 105] smallKey (by decide),
   (c8_data_root "" "0" "AA" [] smallKey (by decide)).2 rfl⟩

/-- Claim C9: the signer's in-place mutation (modeled as state passing;
the Python function returns the same dictionary object it mutated) writes
exactly data_root, signature and id on a successful run: every other
field of the final state equals the input field, data_root is recomputed
from the `data` field regardless of any caller-supplied value, and
signature and id hold the encodings of the raw signature produced for
the deep hash. -/
theorem c9_sign_writes_exactly (tx : TxFields) (key : RSAPrivateNumbers) (root : String)
    (hroot : (if tx.data ≠ "" then (base64url_decode tx.data).map (fun db => base64url_encode (sha256 db))
              else some "") = some root)
    (hs : (sign_transaction_v2 tx key).2 = none) :
    (sign_transaction_v2 tx key).1.format = tx.format ∧
    (sign_transaction_v2 tx key).1.last_tx = tx.last_tx ∧
    (sign_transaction_v2 tx key).1.owner = tx.owner ∧
    (sign_transaction_v2 tx key).1.tags = tx.tags ∧
    (sign_transaction_v2 tx key).1.target = tx.target ∧
    (sign_transaction_v2 tx key).1.quantity = tx.quantity ∧
    (sign_transaction_v2 tx key).1.data = tx.data ∧
    (sign_transaction_v2 tx key).1.reward = tx.reward ∧
    (sign_transaction_v2 tx key).1.data_size = tx.data_size ∧
    (sign_transaction_v2 tx key).1.data_root = root ∧
    ∃ dd sig, deep_hash_transaction_v2 {tx with data_root := root} = .ok dd ∧
      rsassa_pkcs1_v15_sha384_sign key dd = .ok sig ∧
      (sign_transaction_v2 tx key).1.signature = base64url_encode sig ∧
      (sign_transaction_v2 tx key).1.id = base64url_encode (sha256 sig) := by
  cases hdh : deep_hash_transaction_v2 {tx with data_root := root} with
  | error e =>
    exfalso
    simp [sign_transaction_v2, hroot, hdh] at hs
  | ok dd =>
    cases hrs : rsassa_pkcs1_v15_sha384_sign key dd with
    | error e =>
      exfalso
      simp [sign_transaction_v2, hroot, hdh, hrs] at hs
    | ok sig =>
      have hfin : sign_transaction_v2 tx key =
          ({tx with data_root := root, signature := base64url_encode sig,
                    id := base64url_encode (sha256 sig)}, none) := by
        simp only [sign_transaction_v2, hroot, hdh, hrs]
      rw [hfin]
      exact ⟨rfl, rfl, rfl, rfl, rfl, rfl, rfl, rfl, rfl, rfl, dd, sig, rfl, hrs, rfl, rfl⟩

/-- Witness for C9: a concrete successful run with the 624-bit key. -/
theorem c9_sign_writes_exactly_witness :
    (if txCx.data ≠ "" then (base64url_decode txCx.data).map (fun db => base64url_encode (sha256 db))
     else some "") = some "" ∧
    (sign_transaction_v2 txCx bigKey).2 = none ∧
    ((sign_transaction_v2 txCx bigKey).1.format = txCx.format ∧
     (sign_transaction_v2 txCx bigKey).1.last_tx = txCx.last_tx ∧
     (sign_transaction_v2 txCx bigKey).1.owner = txCx.owner ∧
     (sign_transaction_v2 txCx bigKey).1.tags = txCx.tags ∧
     (sign_transaction_v2 txCx bigKey).1.target = txCx.target ∧
     (sign_transaction_v2 txCx bigKey).1.quantity = txCx.quantity ∧
     (sign_transaction_v2 txCx bigKey).1.data = txCx.data ∧
     (sign_transaction_v2 txCx bigKey).1.reward = txCx.reward ∧
     (sign_transaction_v2 txCx bigKey).1.data_size = txCx.data_size ∧
     (sign_transaction_v2 txCx bigKey).1.data_root = "" ∧
     ∃ dd sig, deep_hash_transaction_v2 {txCx with data_root := ""} = .ok dd ∧
       rsassa_pkcs1_v15_sha384_sign bigKey dd = .ok sig ∧
       (sign_transaction_v2 txCx bigKey).1.signature = base64url_encode sig ∧
       (sign_transaction_v2 txCx bigKey).1.id = base64url_encode (sha256 sig)) :=
  ⟨by decide, by decide, c9_sign_writes_exactly txCx bigKey "" (by decide) (by decide)⟩
